import Mathlib

/-!
Shallow embedding of the cosmic-canvas-3d source (a three.js galaxy
visualiser) and proofs about it.

JavaScript numbers are modelled by real numbers; `Math.random()` draws are
passed in explicitly as values in `[0, 1)`.  Where the source can produce a
non-finite JS number (the `0/0` in the thickness normalisation when a galaxy
radius is `0`), the affected slice is modelled over `JSNum`, a real extended
with `NaN` and the two infinities, with the IEEE/JS propagation rules of the
operators the source applies to it.

Sources embedded:
  * `src/App.tsx` — `rand`, `randInt`, `generateRandomGalaxyParameters`,
    `createSingleGalaxyGroup` (per-point star/dust position pipeline, dust
    point count, material opacities);
  * the scene component (`ThreeScene`) — the per-frame `animate` body for one
    galaxy instance (rotation, Primed→Disintegrating transition,
    disintegration interpolation, disposal), the frame tick over the instance
    collection, and the regeneration effect.
-/

noncomputable section

/-- The helper `rand`: `Math.random() * (max - min) + min`, with the
`Math.random()` draw `u` passed explicitly. -/
def rand (lo hi u : ℝ) : ℝ := u * (hi - lo) + lo

/-- The helper `randInt`: `Math.floor(rand(min, max + 1))`. -/
def randInt (lo hi u : ℝ) : ℤ := Int.floor (rand lo (hi + 1) u)

/-- JS `Math.trunc` / the rounding `%` uses: toward zero. -/
def jsTrunc (x : ℝ) : ℤ := if 0 ≤ x then Int.floor x else Int.ceil x

/-- The JS remainder operator `a % b` on finite numbers (truncated division). -/
def jsMod (a b : ℝ) : ℝ := a - b * (jsTrunc (a / b) : ℝ)

/-- A THREE.Vector3 (also used for Euler rotations and scales). -/
structure Vec3 where
  x : ℝ
  y : ℝ
  z : ℝ

/-- A THREE.Color built by `setHSL(h, s, l)`, modelled by the HSL triple it was built
from (the code never reads colour fields back, so the RGB conversion is not
modelled). -/
structure Color where
  h : ℝ
  s : ℝ
  l : ℝ

/-- The `GalaxyParams` interface of `App.tsx`. -/
structure GalaxyParams where
  radius : ℝ
  thickness : ℝ
  numArms : ℤ
  armTightness : ℝ
  armAngularWidth : ℝ
  coreRatio : ℝ
  centerBrightColor : Color
  armBaseColor : Color
  armEdgeColor : Color
  nebulaColor : Color
  nebulaProbability : ℝ
  starPointSize : ℝ
  numStarPoints : ℤ
  dustColor : Color
  dustNebulaColor : Color
  dustNebulaProbability : ℝ
  dustPointSizeMultiplier : ℝ
  dustOpacity : ℝ
  dustThicknessMultiplier : ℝ
  wobbleAmplitude : ℝ
  wobbleFrequency : ℝ
  baseArmSpeed : ℝ
  baseOrbitSpeed : ℝ

/-- The generator `generateRandomGalaxyParameters(universeRadius)` from `App.tsx`.  The
stream `u` supplies the successive `Math.random()` draws in the source's
evaluation order (index 0 first). -/
def generateRandomGalaxyParameters (universeRadius : ℝ) (u : ℕ → ℝ) : GalaxyParams :=
  let individualGalaxyRadius := rand (universeRadius * 0.02) (universeRadius * 0.08) (u 0)
  let armBaseHue := u 1
  let nebulaHue := jsMod (armBaseHue + rand 0.2 0.4 (u 2)) 1.0
  { radius := individualGalaxyRadius
    thickness := individualGalaxyRadius * rand 0.04 0.1 (u 3)
    numArms := randInt 2 5 (u 4)
    armTightness := rand 0.15 0.8 (u 5)
    armAngularWidth := rand 0.4 1.5 (u 6)
    coreRatio := rand 0.05 0.15 (u 7)
    centerBrightColor := ⟨rand 0.08 0.15 (u 8), rand 0.7 1.0 (u 9), rand 0.85 0.95 (u 10)⟩
    armBaseColor := ⟨armBaseHue, rand 0.6 0.9 (u 11), rand 0.4 0.6 (u 12)⟩
    armEdgeColor := ⟨jsMod (armBaseHue + rand (-0.05) 0.05 (u 13)) 1.0,
      rand 0.5 0.8 (u 14), rand 0.5 0.7 (u 15)⟩
    nebulaColor := ⟨nebulaHue, rand 0.7 1.0 (u 16), rand 0.6 0.75 (u 17)⟩
    nebulaProbability := rand 0.05 0.25 (u 18)
    starPointSize := rand 0.01 0.03 (u 19) * (individualGalaxyRadius / 5)
    numStarPoints := randInt 4000 12000 (u 20)
    dustColor := ⟨u 21, rand 0.1 0.3 (u 22), rand 0.05 0.15 (u 23)⟩
    dustNebulaColor := ⟨u 24, rand 0.2 0.4 (u 25), rand 0.1 0.2 (u 26)⟩
    dustNebulaProbability := rand 0.02 0.1 (u 27)
    dustPointSizeMultiplier := rand 3 8 (u 28)
    dustOpacity := rand 0.2 0.5 (u 29)
    dustThicknessMultiplier := rand 1.2 2.0 (u 30)
    wobbleAmplitude := rand 0.05 0.2 (u 31)
    wobbleFrequency := rand 1.5 4.0 (u 32)
    baseArmSpeed := rand (-0.0015) 0.0015 (u 33)
    baseOrbitSpeed := rand (-0.0008) 0.0008 (u 34) }

/-- A JS number for the slices of the builder where a non-finite value can
arise: a finite real, `NaN`, `+Infinity` or `-Infinity`.  (JS `-0` is not
distinguished from `0`; no denominator in the embedded slices is a negative
zero.) -/
inductive JSNum where
  | fin : ℝ → JSNum
  | nan : JSNum
  | posInf : JSNum
  | negInf : JSNum

/-- JS unary minus. -/
def jsNeg : JSNum → JSNum
  | .fin a => .fin (-a)
  | .nan => .nan
  | .posInf => .negInf
  | .negInf => .posInf

/-- JS `+` on numbers. -/
def jsAdd : JSNum → JSNum → JSNum
  | .fin a, .fin b => .fin (a + b)
  | .nan, _ => .nan
  | _, .nan => .nan
  | .posInf, .negInf => .nan
  | .negInf, .posInf => .nan
  | .posInf, _ => .posInf
  | _, .posInf => .posInf
  | .negInf, _ => .negInf
  | _, .negInf => .negInf

/-- JS `-` on numbers (`a - b = a + (-b)` holds exactly in IEEE special-value
arithmetic). -/
def jsSub (a b : JSNum) : JSNum := jsAdd a (jsNeg b)

/-- JS `*` on numbers: `0 * ±∞ = NaN`, signs as usual. -/
def jsMul : JSNum → JSNum → JSNum
  | .fin a, .fin b => .fin (a * b)
  | .nan, _ => .nan
  | _, .nan => .nan
  | .posInf, .posInf => .posInf
  | .negInf, .negInf => .posInf
  | .posInf, .negInf => .negInf
  | .negInf, .posInf => .negInf
  | .fin a, .posInf => if 0 < a then .posInf else if a < 0 then .negInf else .nan
  | .posInf, .fin a => if 0 < a then .posInf else if a < 0 then .negInf else .nan
  | .fin a, .negInf => if 0 < a then .negInf else if a < 0 then .posInf else .nan
  | .negInf, .fin a => if 0 < a then .negInf else if a < 0 then .posInf else .nan

/-- JS `/` on numbers: `0/0 = NaN`, `a/0 = ±∞` for `a ≠ 0` (denominator `+0`),
`a/±∞ = 0`, `±∞/±∞ = NaN`. -/
def jsDiv : JSNum → JSNum → JSNum
  | .fin a, .fin b =>
      if b = 0 then (if a = 0 then .nan else if 0 < a then .posInf else .negInf)
      else .fin (a / b)
  | .nan, _ => .nan
  | _, .nan => .nan
  | .fin _, .posInf => .fin 0
  | .fin _, .negInf => .fin 0
  | .posInf, .fin b => if 0 ≤ b then .posInf else .negInf
  | .negInf, .fin b => if 0 ≤ b then .negInf else .posInf
  | .posInf, _ => .nan
  | .negInf, _ => .nan

/-- JS `Math.min` on two numbers: `NaN` if either argument is `NaN`. -/
def jsMin : JSNum → JSNum → JSNum
  | .nan, _ => .nan
  | _, .nan => .nan
  | .fin a, .fin b => .fin (min a b)
  | .negInf, _ => .negInf
  | _, .negInf => .negInf
  | .posInf, b => b
  | a, .posInf => a

/-- JS `Math.max` on two numbers: `NaN` if either argument is `NaN`. -/
def jsMax : JSNum → JSNum → JSNum
  | .nan, _ => .nan
  | _, .nan => .nan
  | .fin a, .fin b => .fin (max a b)
  | .posInf, _ => .posInf
  | _, .posInf => .posInf
  | .negInf, b => b
  | a, .negInf => a

/-- JS `Math.pow(x, e)` for a positive, non-integer exponent `e` (the embedded
slices apply it only with `e = 1.3` and `e = 1.2`): `NaN^e = NaN`, a negative
finite base gives `NaN`, `0^e = 0`, a positive base is the real power,
`(±∞)^e = +∞`. -/
def jsPow (x : JSNum) (e : ℝ) : JSNum :=
  match x with
  | .fin a => if 0 < a then .fin (a ^ e) else if a = 0 then .fin 0 else .nan
  | .nan => .nan
  | .posInf => .posInf
  | .negInf => .posInf

/-- JS `x > c` for a finite literal `c`: `NaN` compares false. -/
def JSNum.gtR (x : JSNum) (c : ℝ) : Prop :=
  match x with
  | .fin a => c < a
  | .posInf => True
  | .nan => False
  | .negInf => False

instance (x : JSNum) (c : ℝ) : Decidable (x.gtR c) :=
  match x with
  | .fin a => inferInstanceAs (Decidable (c < a))
  | .posInf => .isTrue trivial
  | .nan => .isFalse fun h => h
  | .negInf => .isFalse fun h => h

/-- Line 209 of `createSingleGalaxyGroup`: the star radial distance before the
edge-extension branch, `Math.pow(randomProgress, 1.6) * radius`. -/
def starRadialDistancePre (randomProgress radius : ℝ) : ℝ :=
  randomProgress ^ (1.6 : ℝ) * radius

/-- Line 279 of `createSingleGalaxyGroup`: the dust radial distance before the
edge-extension branch,
`Math.pow(randomProgress, 1.3) * radius * 0.95 + (radius * 0.05)`. -/
def dustRadialDistancePre (randomProgress radius : ℝ) : ℝ :=
  randomProgress ^ (1.3 : ℝ) * radius * 0.95 + radius * 0.05

/-- The helper `getArmWobble(radialDist, currentRadius, armIdx)` from
`createSingleGalaxyGroup`, with its internal `rand(0.5, 1.0)` draw passed as
`uPhase`.  (Real division: the callers only reach it with
`currentRadius > 0`.) -/
def getArmWobble (wobbleFrequency wobbleAmplitude radialDist currentRadius : ℝ)
    (armIdx : ℤ) (uPhase : ℝ) : ℝ :=
  let normalizedRadiusForWobble := radialDist / currentRadius
  Real.sin (normalizedRadiusForWobble * wobbleFrequency * Real.pi * 2 +
      (armIdx : ℝ) * Real.pi * rand 0.5 1.0 uPhase) *
    wobbleAmplitude * (1.0 - normalizedRadiusForWobble * 0.5)

/-- The `Math.random()` draws one star point consumes, named in the order the
source calls them (a branch not taken leaves its draw unused). -/
structure StarDraws where
  progress : ℝ
  ext : ℝ
  arm : ℝ
  angleOff : ℝ
  wobblePhase : ℝ
  coreAngle : ℝ
  coreGate : ℝ
  corePull : ℝ
  y1 : ℝ
  y2 : ℝ

/-- The `Math.random()` draws one dust point consumes, in source order. -/
structure DustDraws where
  progress : ℝ
  ext : ℝ
  arm : ℝ
  spiralJit : ℝ
  angleOff : ℝ
  wobblePhase : ℝ
  coreGate : ℝ
  corePush : ℝ
  coreShift : ℝ
  y1 : ℝ
  y2 : ℝ

/-- One star point's `(x, y, z)` from the star loop of
`createSingleGalaxyGroup` (the position pipeline; the colour computation of
the same loop writes a separate buffer and is not embedded).  The radial
distance and angle are plain reals — on these paths every JS operation is
total and finite (the wobble division is guarded by
`radialDistance < radius * 0.9`, so its denominator is positive when reached).
The vertical coordinate is a `JSNum`, because
`radialDistance / (radius * 1.25)` is `0/0 = NaN` when `radius = 0`.
The source multiplies `radialDistance` by the extension factor only inside the
`randomProgress > 0.7` branch; multiplying by the factor's default `1.0`
outside it is the same number. -/
def starPointPos (p : GalaxyParams) (d : StarDraws) : ℝ × JSNum × ℝ :=
  let radialDistance0 := starRadialDistancePre d.progress p.radius
  let extensionFactor := if d.progress > 0.7 then 1.0 + (d.ext - 0.4) * 0.7 else 1.0
  let radialDistance1 := radialDistance0 * extensionFactor
  let armChoice : ℤ := Int.floor (d.arm * (p.numArms : ℝ))
  let baseAngleForArm := ((armChoice : ℝ) / (p.numArms : ℝ)) * Real.pi * 2
  let spiralOffset := radialDistance1 * p.armTightness
  let angleOffsetWithinArm := (d.angleOff ^ (0.55 : ℝ) - 0.5) * p.armAngularWidth
  let angle1 := baseAngleForArm + spiralOffset + angleOffsetWithinArm
  let angle2 :=
    if radialDistance1 > p.radius * p.coreRatio * 1.2 ∧ radialDistance1 < p.radius * 0.9 then
      angle1 + getArmWobble p.wobbleFrequency p.wobbleAmplitude radialDistance1 p.radius
        armChoice d.wobblePhase
    else angle1
  let angle3 := if radialDistance1 < p.radius * p.coreRatio then d.coreAngle * Real.pi * 2
    else angle2
  let radialDistance2 :=
    if radialDistance1 < p.radius * p.coreRatio then
      (if d.coreGate < 0.7 then radialDistance1 * (d.corePull ^ (1.8 : ℝ) * 0.85)
       else radialDistance1)
    else radialDistance1
  let x := radialDistance2 * Real.cos angle3
  let z := radialDistance2 * Real.sin angle3
  let yRand := (d.y1 - 0.5) * (d.y2 - 0.5) * 3.8
  let normalizedRadiusForThickness :=
    jsMin (.fin 1.0) (jsDiv (.fin radialDistance2) (.fin (p.radius * 1.25)))
  let thicknessFactor :=
    jsPow (jsSub (.fin 1.0) (jsMul normalizedRadiusForThickness (.fin 0.9))) 1.3
  let y0 := jsMul (jsMul (.fin yRand) (.fin p.thickness)) thicknessFactor
  let y :=
    if normalizedRadiusForThickness.gtR 0.7 then
      jsMul y0 (jsMax (.fin 0)
        (jsAdd
          (jsMul
            (jsSub (.fin 1.0)
              (jsDiv (jsSub normalizedRadiusForThickness (.fin 0.7)) (.fin 0.3)))
            (.fin 0.3))
          (.fin 0.7)))
    else y0
  (x, y, z)

/-- One dust point's `(x, y, z)` from the dust loop of
`createSingleGalaxyGroup` (position pipeline only), modelled like
`starPointPos`. -/
def dustPointPos (p : GalaxyParams) (d : DustDraws) : ℝ × JSNum × ℝ :=
  let radialDistance0 := dustRadialDistancePre d.progress p.radius
  let extensionFactor := if d.progress > 0.65 then 1.0 + (d.ext - 0.35) * 0.6 else 1.0
  let radialDistance1 := radialDistance0 * extensionFactor
  let armChoice : ℤ := Int.floor (d.arm * (p.numArms : ℝ))
  let baseAngleForArm := ((armChoice : ℝ) / (p.numArms : ℝ)) * Real.pi * 2
  let spiralOffset := radialDistance1 * (p.armTightness * (0.9 + d.spiralJit * 0.2)) - 0.05
  let angleOffsetWithinArm := (d.angleOff - 0.5) * p.armAngularWidth * 0.7
  let angle1 := baseAngleForArm + spiralOffset + angleOffsetWithinArm
  let angle2 :=
    if radialDistance1 > p.radius * p.coreRatio * 1.5 ∧ radialDistance1 < p.radius * 0.85 then
      angle1 + getArmWobble p.wobbleFrequency p.wobbleAmplitude radialDistance1 p.radius
        armChoice d.wobblePhase * 0.8
    else angle1
  let radialDistance2 :=
    if radialDistance1 < p.radius * p.coreRatio * 1.8 then
      (if d.coreGate < 0.5 then radialDistance1 * (1.0 + d.corePush * 0.4)
       else radialDistance1)
    else radialDistance1
  let angle3 :=
    if radialDistance1 < p.radius * p.coreRatio * 1.8 then
      (if d.coreGate < 0.5 then angle2 else angle2 + (d.coreShift - 0.5) * 0.2)
    else angle2
  let x := radialDistance2 * Real.cos angle3
  let z := radialDistance2 * Real.sin angle3
  let yRand := (d.y1 - 0.5) * (d.y2 - 0.5) * 3.0
  let normalizedRadiusForThickness :=
    jsMin (.fin 1.0) (jsDiv (.fin radialDistance2) (.fin (p.radius * 1.25)))
  let thicknessFactor :=
    jsPow (jsSub (.fin 1.0) (jsMul normalizedRadiusForThickness (.fin 0.85))) 1.2
  let y0 := jsMul
    (jsMul (jsMul (jsMul (.fin yRand) (.fin p.thickness)) thicknessFactor)
      (.fin p.dustThicknessMultiplier))
    (.fin 0.7)
  let y :=
    if normalizedRadiusForThickness.gtR 0.8 then
      jsMul y0 (jsMax (.fin 0.05)
        (jsAdd
          (jsMul
            (jsSub (.fin 1.0)
              (jsDiv (jsSub normalizedRadiusForThickness (.fin 0.8)) (.fin 0.2)))
            (.fin 0.4))
          (.fin 0.6)))
    else y0
  (x, y, z)

/-- Line 198: `const numDustPoints = Math.floor(numStarPoints / rand(3, 6))`. -/
def numDustPoints (numStarPoints : ℤ) (uDust : ℝ) : ℤ :=
  Int.floor ((numStarPoints : ℝ) / rand 3 6 uDust)

/-- The dust position buffer: the dust loop writes `x, y, z` for each of the
`numDustPoints` points into a `Float32Array(numDustPoints * 3)`; `ds i` gives
point `i`'s draws. -/
def dustPositionsBuffer (p : GalaxyParams) (n : ℕ) (ds : ℕ → DustDraws) : List JSNum :=
  (List.range n).flatMap fun i =>
    [.fin (dustPointPos p (ds i)).1, (dustPointPos p (ds i)).2.1,
      .fin (dustPointPos p (ds i)).2.2]

/-- The transform of a THREE.Object3D (`position`, Euler `rotation`,
`scale`), as far as the scene component touches it. -/
structure Transform3D where
  position : Vec3
  rotation : Vec3
  scale : Vec3

/-- A THREE.Points as the scene component reads and writes it: its transform
and its material's `opacity`.  (The geometry buffers are immutable after
construction and modelled separately by the builder functions.) -/
structure PointsObj where
  rotation : Vec3
  scale : Vec3
  opacity : ℝ

/-- The `GalaxyInstance` record of the scene component. -/
structure GalaxyInstance where
  group : Transform3D
  baseOrbitSpeed : ℝ
  baseArmSpeed : ℝ
  starSystem : PointsObj
  dustSystem : Option PointsObj
  disintegrationTriggerTime : Option ℝ
  disintegrationDelay : ℝ
  isDisintegrating : Bool
  disintegrationAnimationStartTime : Option ℝ
  disintegrationDuration : ℝ
  disintegrationTargetCamPos : Option Vec3
  disintegrationInitialGroupPos : Option Vec3
  disintegrationRandomScaleFactor : ℝ
  originalStarMaterialOpacity : ℝ
  originalDustMaterialOpacity : Option ℝ

/-- THREE.Vector3.lerpVectors: `a + (b - a) * t`, componentwise. -/
def lerpVectors (a b : Vec3) (t : ℝ) : Vec3 :=
  ⟨a.x + (b.x - a.x) * t, a.y + (b.y - a.y) * t, a.z + (b.z - a.z) * t⟩

/-- The disintegration progress of the `animate` body:
`elapsedTime = (now - startTime) / 1000` (ms → s),
`progress = Math.min(1, elapsedTime / duration)` (duration in seconds). -/
def disintegrationProgress (startTime duration now : ℝ) : ℝ :=
  min 1 (((now - startTime) / 1000) / duration)

/-- Lines 123–127 of the `animate` body: the rotation substep, applied to
every instance on every tick.  `uJitter` is the tick's `rand(0.9, 1.1)` draw
for the dust cloud. -/
def rotationSubstep (inst : GalaxyInstance) (orbitMult armMult uJitter : ℝ) :
    GalaxyInstance :=
  { inst with
    group := { inst.group with
      rotation := { inst.group.rotation with
        y := inst.group.rotation.y + inst.baseOrbitSpeed * orbitMult * 100 } }
    starSystem := { inst.starSystem with
      rotation := { inst.starSystem.rotation with
        y := inst.starSystem.rotation.y + inst.baseArmSpeed * armMult * 100 } }
    dustSystem := inst.dustSystem.map fun d =>
      { d with rotation := { d.rotation with
          y := d.rotation.y + inst.baseArmSpeed * armMult * 100 * rand 0.9 1.1 uJitter } } }

/-- Lines 129–149 of the `animate` body: the Primed → Disintegrating
transition.  `cameraPos` is the camera position (the source falls back to
`(0, 0, group.z + 50)` when the camera ref is empty); `uDuration` and
`uScaleFactor` are the draws for `rand(2.0, 4.5)` and `rand(2.5, 7.0)`. -/
def triggerSubstep (inst : GalaxyInstance) (now : ℝ) (cameraPos : Option Vec3)
    (uDuration uScaleFactor : ℝ) : GalaxyInstance :=
  match inst.disintegrationTriggerTime with
  | none => inst
  | some triggerTime =>
    if inst.isDisintegrating then inst
    else if now ≥ triggerTime + inst.disintegrationDelay then
      { inst with
        isDisintegrating := true
        disintegrationAnimationStartTime := some now
        disintegrationTargetCamPos := some (match cameraPos with
          | some c => c
          | none => ⟨0, 0, inst.group.position.z + 50⟩)
        disintegrationInitialGroupPos := some inst.group.position
        disintegrationDuration := rand 2.0 4.5 uDuration
        disintegrationRandomScaleFactor := rand 2.5 7.0 uScaleFactor
        starSystem := { inst.starSystem with
          opacity := inst.originalStarMaterialOpacity, scale := ⟨1, 1, 1⟩ }
        dustSystem :=
          match inst.dustSystem, inst.originalDustMaterialOpacity with
          | some d, some od => some { d with opacity := od, scale := ⟨1, 1, 1⟩ }
          | d, _ => d }
    else inst

/-- Lines 151–179 of the `animate` body: the disintegration substep.  Returns
the mutated instance and the `shouldKeepInstance` flag (`false` exactly when
the instance was disposed this tick). -/
def disintegrationSubstep (inst : GalaxyInstance) (now : ℝ) : GalaxyInstance × Bool :=
  match inst.disintegrationAnimationStartTime with
  | none => (inst, true)
  | some startTime =>
    if inst.isDisintegrating then
      let progress := disintegrationProgress startTime inst.disintegrationDuration now
      if progress ≥ 1 then (inst, false)
      else
        let inst3 : GalaxyInstance :=
          match inst.disintegrationInitialGroupPos, inst.disintegrationTargetCamPos with
          | some p0, some pt =>
            { inst with group := { inst.group with position := lerpVectors p0 pt progress } }
          | _, _ => inst
        let scaleProgress := 1 + progress * inst.disintegrationRandomScaleFactor
        let inst4 : GalaxyInstance := { inst3 with
          starSystem := { inst3.starSystem with
            scale := ⟨scaleProgress, scaleProgress, scaleProgress⟩ }
          dustSystem := inst3.dustSystem.map fun d =>
            { d with scale := ⟨scaleProgress, scaleProgress, scaleProgress⟩ } }
        let inst5 : GalaxyInstance := { inst4 with
          starSystem := { inst4.starSystem with
            opacity := inst4.originalStarMaterialOpacity * (1 - progress * progress) } }
        let inst6 : GalaxyInstance :=
          match inst5.originalDustMaterialOpacity with
          | some od =>
            { inst5 with dustSystem := inst5.dustSystem.map fun d =>
                { d with opacity := od * (1 - progress * progress) } }
          | none => inst5
        (inst6, true)
    else (inst, true)

/-- The per-instance body of the `animate` frame callback (lines 120–183):
rotation substep, then the Primed → Disintegrating transition, then the
disintegration substep, in source order. -/
def updateInstance (inst : GalaxyInstance) (now : ℝ) (cameraPos : Option Vec3)
    (orbitMult armMult uJitter uDuration uScaleFactor : ℝ) : GalaxyInstance × Bool :=
  disintegrationSubstep
    (triggerSubstep (rotationSubstep inst orbitMult armMult uJitter) now cameraPos
      uDuration uScaleFactor) now

/-- One tick of the `animate` loop over the instance collection: every
instance is updated in order and the kept ones are pushed onto the new
`stillActiveGalaxies` list.  `dr i` gives the `Math.random()` draws the
update of the instance at position `i` consumes; `i0` is the position of the
list's head. -/
def animateTick (now : ℝ) (cameraPos : Option Vec3) (orbitMult armMult : ℝ)
    (dr : ℕ → ℝ × ℝ × ℝ) : List GalaxyInstance → ℕ → List GalaxyInstance
  | [], _ => []
  | inst :: rest, i =>
    let r := updateInstance inst now cameraPos orbitMult armMult
      (dr i).1 (dr i).2.1 (dr i).2.2
    if r.2 then r.1 :: animateTick now cameraPos orbitMult armMult dr rest (i + 1)
    else animateTick now cameraPos orbitMult armMult dr rest (i + 1)

/-- The object-level result of `createSingleGalaxyGroup(params)`: the two
fresh `THREE.Points` (identity transform; the star material's `opacity` is
the `PointsMaterial` default `1`, the dust material's is `params.dustOpacity`)
and the two recorded original opacities.  The dust system is built only when
`numDustPoints > 0`. -/
structure GalaxyGroupScene where
  starSystem : PointsObj
  dustSystem : Option PointsObj
  originalStarMaterialOpacity : ℝ
  originalDustMaterialOpacity : Option ℝ

/-- The builder `createSingleGalaxyGroup` at the scene-object level, with its
`rand(3, 6)` draw passed as `uDust` (the point-buffer contents are modelled
by `starPointPos` / `dustPointPos` / `dustPositionsBuffer`). -/
def createSingleGalaxyGroupScene (p : GalaxyParams) (uDust : ℝ) : GalaxyGroupScene :=
  let n := numDustPoints p.numStarPoints uDust
  { starSystem := { rotation := ⟨0, 0, 0⟩, scale := ⟨1, 1, 1⟩, opacity := 1 }
    dustSystem :=
      if 0 < n then some { rotation := ⟨0, 0, 0⟩, scale := ⟨1, 1, 1⟩, opacity := p.dustOpacity }
      else none
    originalStarMaterialOpacity := 1
    originalDustMaterialOpacity := if 0 < n then some p.dustOpacity else none }

/-- The `Math.random()` draws one iteration of the regeneration loop consumes:
the parameter-generator stream, the builder's `rand(3, 6)` draw (the per-point
draws do not affect the scene-level state) and the placement draws in source
order. -/
structure RegenDraws where
  params : ℕ → ℝ
  uDust : ℝ
  uR : ℝ
  uPhi : ℝ
  uTheta : ℝ
  uRotX : ℝ
  uRotY : ℝ
  uRotZ : ℝ
  uScale : ℝ

/-- One iteration of the regeneration loop (galaxy generation effect): build
the galaxy group, place it uniformly in the spherical shell
(`r = rand(spread*0.05, spread*0.9)`, `phi = acos(2u-1)`, `theta = u*2π`),
give it a random orientation and uniform scale `rand(0.4, 1.2)`, and push the
fresh `GalaxyInstance` with its disintegration fields at their defaults. -/
def buildInstance (spread : ℝ) (d : RegenDraws) : GalaxyInstance :=
  let galaxyParams := generateRandomGalaxyParameters spread d.params
  let built := createSingleGalaxyGroupScene galaxyParams d.uDust
  let r := rand (spread * 0.05) (spread * 0.9) d.uR
  let phi := Real.arccos (2 * d.uPhi - 1)
  let theta := d.uTheta * Real.pi * 2
  let scale := rand 0.4 1.2 d.uScale
  { group :=
      { position := ⟨r * Real.sin phi * Real.cos theta, r * Real.sin phi * Real.sin theta,
          r * Real.cos phi⟩
        rotation := ⟨rand 0 (Real.pi * 2) d.uRotX, rand 0 (Real.pi * 2) d.uRotY,
          rand 0 (Real.pi * 2) d.uRotZ⟩
        scale := ⟨scale, scale, scale⟩ }
    baseArmSpeed := galaxyParams.baseArmSpeed
    baseOrbitSpeed := galaxyParams.baseOrbitSpeed
    starSystem := built.starSystem
    dustSystem := built.dustSystem
    disintegrationTriggerTime := none
    disintegrationDelay := 0
    isDisintegrating := false
    disintegrationAnimationStartTime := none
    disintegrationDuration := 0
    disintegrationTargetCamPos := none
    disintegrationInitialGroupPos := none
    disintegrationRandomScaleFactor := 1
    originalStarMaterialOpacity := built.originalStarMaterialOpacity
    originalDustMaterialOpacity := built.originalDustMaterialOpacity }

/-- The outcome of one run of the galaxy generation effect. -/
structure RegenResult where
  disposed : List GalaxyInstance
  instances : List GalaxyInstance

/-- The galaxy generation effect: every current instance is disposed
(geometry and material released, group removed from the scene — recorded in
`disposed`) and the collection is rebuilt with `numGalaxies` fresh instances,
iteration `i` consuming the draws `ds i`. -/
def regenerateEffect (old : List GalaxyInstance) (numGalaxies : ℕ) (spread : ℝ)
    (ds : ℕ → RegenDraws) : RegenResult :=
  { disposed := old
    instances := (List.range numGalaxies).map fun i => buildInstance spread (ds i) }

/-- Euclidean norm of a `Vec3`. -/
def vecNorm (v : Vec3) : ℝ := Real.sqrt (v.x ^ 2 + v.y ^ 2 + v.z ^ 2)

/-- A parameter set generated at `universeRadius = 0` (all fields inside their
generated ranges; in particular `radius = 0` and `thickness = 0`). -/
def zeroRadiusParams : GalaxyParams := generateRandomGalaxyParameters 0 (fun _ => 1/2)

/-- One star point's draws, all `1/2`. -/
def halfStarDraws : StarDraws := ⟨1/2, 1/2, 1/2, 1/2, 1/2, 1/2, 1/2, 1/2, 1/2, 1/2⟩

/-- A fresh `THREE.Points` transform with default material opacity. -/
def samplePoints : PointsObj := { rotation := ⟨0, 0, 0⟩, scale := ⟨1, 1, 1⟩, opacity := 1 }

/-- A concrete instance in the Disintegrating phase. -/
def sampleDisintegratingInstance : GalaxyInstance :=
  { group := { position := ⟨0, 0, 0⟩, rotation := ⟨0, 0, 0⟩, scale := ⟨1, 1, 1⟩ }
    baseOrbitSpeed := 0.0005
    baseArmSpeed := 0.001
    starSystem := samplePoints
    dustSystem := some samplePoints
    disintegrationTriggerTime := some 0
    disintegrationDelay := 100
    isDisintegrating := true
    disintegrationAnimationStartTime := some 1000
    disintegrationDuration := 3
    disintegrationTargetCamPos := some ⟨0, 0, 10⟩
    disintegrationInitialGroupPos := some ⟨0, 0, 0⟩
    disintegrationRandomScaleFactor := 4
    originalStarMaterialOpacity := 1
    originalDustMaterialOpacity := some 0.3 }

/-- A concrete instance in the Primed state. -/
def samplePrimedInstance : GalaxyInstance :=
  { sampleDisintegratingInstance with
    isDisintegrating := false
    disintegrationAnimationStartTime := none
    disintegrationTargetCamPos := none
    disintegrationInitialGroupPos := none }

/-- A concrete instance in the Active state. -/
def sampleActiveInstance : GalaxyInstance :=
  { samplePrimedInstance with disintegrationTriggerTime := none }

/-- A concrete parameter set with unit radius and no core region. -/
def flatParams : GalaxyParams :=
  { radius := 1, thickness := 0.05, numArms := 2, armTightness := 0.2,
    armAngularWidth := 0.5, coreRatio := 0,
    centerBrightColor := ⟨0, 0, 0⟩, armBaseColor := ⟨0, 0, 0⟩,
    armEdgeColor := ⟨0, 0, 0⟩, nebulaColor := ⟨0, 0, 0⟩,
    nebulaProbability := 0.1, starPointSize := 0.01, numStarPoints := 4000,
    dustColor := ⟨0, 0, 0⟩, dustNebulaColor := ⟨0, 0, 0⟩,
    dustNebulaProbability := 0.05, dustPointSizeMultiplier := 3,
    dustOpacity := 0.3, dustThicknessMultiplier := 1.2,
    wobbleAmplitude := 0.1, wobbleFrequency := 2,
    baseArmSpeed := 0.001, baseOrbitSpeed := 0.0005 }

/-- Star draws, all zero. -/
def zeroStarDraws : StarDraws := ⟨0, 0, 0, 0, 0, 0, 0, 0, 0, 0⟩

/-- Dust draws, all zero. -/
def zeroDustDraws : DustDraws := ⟨0, 0, 0, 0, 0, 0, 0, 0, 0, 0, 0⟩

/-- Claim C3: for a fixed disintegrating instance (fixed `startTime`,
`duration > 0`), the progress `min(1, ((now − startTime)/1000)/duration)` is
monotonically non-decreasing in `now`, and equals exactly `1` for every
`now ≥ startTime + duration × 1000` ms (`duration` is in seconds, `now` and
`startTime` in milliseconds). -/
theorem disintegrationProgress_monotone_reaches_one (startTime duration : ℝ)
    (hd : 0 < duration) :
    (∀ n1 n2 : ℝ, n1 ≤ n2 →
      disintegrationProgress startTime duration n1 ≤
        disintegrationProgress startTime duration n2) ∧
    (∀ now : ℝ, startTime + duration * 1000 ≤ now →
      disintegrationProgress startTime duration now = 1) := by
  constructor
  · intro n1 n2 h
    unfold disintegrationProgress
    gcongr
  · intro now h
    have h1 : (1 : ℝ) ≤ ((now - startTime) / 1000) / duration := by
      rw [le_div_iff₀ hd]
      linarith
    simp [disintegrationProgress, min_eq_left h1]

/-- Witness for C3 at `startTime = 0`, `duration = 3` s, `now = 3000` ms. -/
theorem disintegrationProgress_monotone_reaches_one_witness :
    disintegrationProgress 0 3 500 ≤ disintegrationProgress 0 3 2000 ∧
    disintegrationProgress 0 3 3000 = 1 :=
  have h := disintegrationProgress_monotone_reaches_one 0 3 (by norm_num)
  ⟨h.1 500 2000 (by norm_num), h.2 3000 (by norm_num)⟩

/-- Claim C5: for `universeRadius > 0` and draws in `[0, 1)`, the generated
parameters satisfy `nebulaProbability ∈ [0,1]`, `dustNebulaProbability ∈ [0,1]`,
`numArms` an integer in `[2, 5]`, `radius > 0` and
`radius ∈ [0.02, 0.08] × universeRadius`. -/
theorem generateRandomGalaxyParameters_ranges (universeRadius : ℝ) (u : ℕ → ℝ)
    (hR : 0 < universeRadius) (hu : ∀ i, 0 ≤ u i ∧ u i < 1) :
    (0 ≤ (generateRandomGalaxyParameters universeRadius u).nebulaProbability ∧
      (generateRandomGalaxyParameters universeRadius u).nebulaProbability ≤ 1) ∧
    (0 ≤ (generateRandomGalaxyParameters universeRadius u).dustNebulaProbability ∧
      (generateRandomGalaxyParameters universeRadius u).dustNebulaProbability ≤ 1) ∧
    (2 ≤ (generateRandomGalaxyParameters universeRadius u).numArms ∧
      (generateRandomGalaxyParameters universeRadius u).numArms ≤ 5) ∧
    0 < (generateRandomGalaxyParameters universeRadius u).radius ∧
    universeRadius * 0.02 ≤ (generateRandomGalaxyParameters universeRadius u).radius ∧
    (generateRandomGalaxyParameters universeRadius u).radius ≤ universeRadius * 0.08 := by
  have h18 := hu 18
  have h27 := hu 27
  have h4 := hu 4
  have h0 := hu 0
  simp only [generateRandomGalaxyParameters, rand, randInt]
  refine ⟨⟨by linarith [h18.1, h18.2], by linarith [h18.1, h18.2]⟩,
    ⟨by linarith [h27.1, h27.2], by linarith [h27.1, h27.2]⟩, ⟨?_, ?_⟩, ?_, ?_, ?_⟩
  · rw [Int.le_floor]
    push_cast
    nlinarith [h4.1, h4.2]
  · rw [← Int.lt_add_one_iff]
    have : ((5 : ℤ) + 1 : ℝ) = 6 := by norm_num
    rw [Int.floor_lt]
    push_cast
    nlinarith [h4.1, h4.2]
  · nlinarith [mul_nonneg h0.1 hR.le]
  · nlinarith [mul_nonneg h0.1 hR.le]
  · nlinarith [mul_nonneg (sub_nonneg.mpr h0.2.le) hR.le]

/-- Witness for C5 at `universeRadius = 100` and the constant draw `1/2`. -/
theorem generateRandomGalaxyParameters_ranges_witness :
    (2 ≤ (generateRandomGalaxyParameters 100 (fun _ => 1/2)).numArms ∧
      (generateRandomGalaxyParameters 100 (fun _ => 1/2)).numArms ≤ 5) ∧
    0 < (generateRandomGalaxyParameters 100 (fun _ => 1/2)).radius :=
  have h := generateRandomGalaxyParameters_ranges 100 (fun _ => 1/2) (by norm_num)
    (fun _ => ⟨by norm_num, by norm_num⟩)
  ⟨h.2.2.1, h.2.2.2.1⟩

lemma rotationSubstep_trigger (inst : GalaxyInstance) (om am uj : ℝ) :
    (rotationSubstep inst om am uj).disintegrationTriggerTime
      = inst.disintegrationTriggerTime := rfl

lemma rotationSubstep_isDis (inst : GalaxyInstance) (om am uj : ℝ) :
    (rotationSubstep inst om am uj).isDisintegrating = inst.isDisintegrating := rfl

lemma rotationSubstep_startTime (inst : GalaxyInstance) (om am uj : ℝ) :
    (rotationSubstep inst om am uj).disintegrationAnimationStartTime
      = inst.disintegrationAnimationStartTime := rfl

lemma disintegrationSubstep_not_disintegrating (inst : GalaxyInstance) (now : ℝ)
    (h : inst.isDisintegrating = false) :
    disintegrationSubstep inst now = (inst, true) := by
  rcases hS : inst.disintegrationAnimationStartTime with _ | st <;>
    simp [disintegrationSubstep, hS, h]

lemma disintegrationSubstep_dispose (inst : GalaxyInstance) (now st : ℝ)
    (hD : inst.isDisintegrating = true)
    (hS : inst.disintegrationAnimationStartTime = some st)
    (hP : disintegrationProgress st inst.disintegrationDuration now ≥ 1) :
    disintegrationSubstep inst now = (inst, false) := by
  simp [disintegrationSubstep, hS, hD, hP]

set_option maxHeartbeats 1000000 in
lemma disintegrationSubstep_rotations (inst : GalaxyInstance) (now : ℝ) :
    ((disintegrationSubstep inst now).1.group.rotation = inst.group.rotation) ∧
    ((disintegrationSubstep inst now).1.starSystem.rotation = inst.starSystem.rotation) ∧
    ((disintegrationSubstep inst now).1.dustSystem.map PointsObj.rotation
      = inst.dustSystem.map PointsObj.rotation) := by
  rcases hS : inst.disintegrationAnimationStartTime with _ | st
  · simp [disintegrationSubstep, hS]
  · cases hD : inst.isDisintegrating
    · simp [disintegrationSubstep, hS, hD]
    · by_cases hP : disintegrationProgress st inst.disintegrationDuration now ≥ 1
      · simp [disintegrationSubstep, hS, hD, hP]
      · rcases hI : inst.disintegrationInitialGroupPos with _ | p0 <;>
        rcases hT : inst.disintegrationTargetCamPos with _ | pt <;>
        rcases hO : inst.originalDustMaterialOpacity with _ | od <;>
        rcases hDu : inst.dustSystem with _ | d0 <;>
        simp [disintegrationSubstep, hS, hD, hP, hI, hT, hO, hDu]

lemma triggerSubstep_none (inst : GalaxyInstance) (now : ℝ) (cam : Option Vec3)
    (ud us : ℝ) (h : inst.disintegrationTriggerTime = none) :
    triggerSubstep inst now cam ud us = inst := by
  simp [triggerSubstep, h]

lemma triggerSubstep_already (inst : GalaxyInstance) (now : ℝ) (cam : Option Vec3)
    (ud us : ℝ) (h : inst.isDisintegrating = true) :
    triggerSubstep inst now cam ud us = inst := by
  rcases hT : inst.disintegrationTriggerTime with _ | t <;> simp [triggerSubstep, hT, h]

lemma triggerSubstep_wait (inst : GalaxyInstance) (now : ℝ) (cam : Option Vec3)
    (ud us t : ℝ) (hT : inst.disintegrationTriggerTime = some t)
    (hD : inst.isDisintegrating = false)
    (hN : ¬ now ≥ t + inst.disintegrationDelay) :
    triggerSubstep inst now cam ud us = inst := by
  simp [triggerSubstep, hT, hD, hN]

set_option maxHeartbeats 1000000 in
lemma triggerSubstep_fire (inst : GalaxyInstance) (now : ℝ) (cam : Option Vec3)
    (ud us t : ℝ) (hT : inst.disintegrationTriggerTime = some t)
    (hD : inst.isDisintegrating = false)
    (hN : now ≥ t + inst.disintegrationDelay) :
    triggerSubstep inst now cam ud us =
      { inst with
        isDisintegrating := true
        disintegrationAnimationStartTime := some now
        disintegrationTargetCamPos := some (match cam with
          | some c => c
          | none => ⟨0, 0, inst.group.position.z + 50⟩)
        disintegrationInitialGroupPos := some inst.group.position
        disintegrationDuration := rand 2.0 4.5 ud
        disintegrationRandomScaleFactor := rand 2.5 7.0 us
        starSystem := { inst.starSystem with
          opacity := inst.originalStarMaterialOpacity, scale := ⟨1, 1, 1⟩ }
        dustSystem :=
          match inst.dustSystem, inst.originalDustMaterialOpacity with
          | some d, some od => some { d with opacity := od, scale := ⟨1, 1, 1⟩ }
          | d, _ => d } := by
  simp [triggerSubstep, hT, hD, hN]

set_option maxHeartbeats 1000000 in
lemma disintegrationSubstep_active (inst : GalaxyInstance) (now st : ℝ) (p0 pt : Vec3)
    (hD : inst.isDisintegrating = true)
    (hS : inst.disintegrationAnimationStartTime = some st)
    (hI : inst.disintegrationInitialGroupPos = some p0)
    (hT : inst.disintegrationTargetCamPos = some pt)
    (hP : ¬ disintegrationProgress st inst.disintegrationDuration now ≥ 1) :
    (disintegrationSubstep inst now).2 = true ∧
    (disintegrationSubstep inst now).1.group.position
      = lerpVectors p0 pt (disintegrationProgress st inst.disintegrationDuration now) ∧
    (disintegrationSubstep inst now).1.starSystem.scale
      = ⟨1 + disintegrationProgress st inst.disintegrationDuration now *
            inst.disintegrationRandomScaleFactor,
          1 + disintegrationProgress st inst.disintegrationDuration now *
            inst.disintegrationRandomScaleFactor,
          1 + disintegrationProgress st inst.disintegrationDuration now *
            inst.disintegrationRandomScaleFactor⟩ ∧
    (disintegrationSubstep inst now).1.starSystem.opacity
      = inst.originalStarMaterialOpacity *
          (1 - disintegrationProgress st inst.disintegrationDuration now *
            disintegrationProgress st inst.disintegrationDuration now) ∧
    (∀ d0, inst.dustSystem = some d0 →
      ∃ d1, (disintegrationSubstep inst now).1.dustSystem = some d1 ∧
        d1.scale = ⟨1 + disintegrationProgress st inst.disintegrationDuration now *
            inst.disintegrationRandomScaleFactor,
          1 + disintegrationProgress st inst.disintegrationDuration now *
            inst.disintegrationRandomScaleFactor,
          1 + disintegrationProgress st inst.disintegrationDuration now *
            inst.disintegrationRandomScaleFactor⟩ ∧
        (∀ od, inst.originalDustMaterialOpacity = some od →
          d1.opacity = od * (1 - disintegrationProgress st inst.disintegrationDuration now *
            disintegrationProgress st inst.disintegrationDuration now))) := by
  rcases hO : inst.originalDustMaterialOpacity with _ | od <;>
  rcases hDu : inst.dustSystem with _ | d0 <;>
  simp [disintegrationSubstep, hS, hD, hP, hI, hT, hO, hDu]

set_option maxHeartbeats 1000000 in
lemma disintegrationSubstep_state_fields (inst : GalaxyInstance) (now : ℝ) :
    ((disintegrationSubstep inst now).1.isDisintegrating = inst.isDisintegrating) ∧
    ((disintegrationSubstep inst now).1.disintegrationAnimationStartTime
      = inst.disintegrationAnimationStartTime) ∧
    ((disintegrationSubstep inst now).1.disintegrationTriggerTime
      = inst.disintegrationTriggerTime) ∧
    ((disintegrationSubstep inst now).1.disintegrationDelay = inst.disintegrationDelay) ∧
    ((disintegrationSubstep inst now).1.disintegrationDuration
      = inst.disintegrationDuration) ∧
    ((disintegrationSubstep inst now).1.disintegrationTargetCamPos
      = inst.disintegrationTargetCamPos) ∧
    ((disintegrationSubstep inst now).1.disintegrationInitialGroupPos
      = inst.disintegrationInitialGroupPos) ∧
    ((disintegrationSubstep inst now).1.disintegrationRandomScaleFactor
      = inst.disintegrationRandomScaleFactor) ∧
    ((disintegrationSubstep inst now).1.originalStarMaterialOpacity
      = inst.originalStarMaterialOpacity) ∧
    ((disintegrationSubstep inst now).1.originalDustMaterialOpacity
      = inst.originalDustMaterialOpacity) := by
  rcases hS : inst.disintegrationAnimationStartTime with _ | st
  · simp [disintegrationSubstep, hS]
  · cases hD : inst.isDisintegrating
    · simp [disintegrationSubstep, hS, hD]
    · by_cases hP : disintegrationProgress st inst.disintegrationDuration now ≥ 1
      · simp [disintegrationSubstep, hS, hD, hP]
      · rcases hI : inst.disintegrationInitialGroupPos with _ | p0 <;>
        rcases hT : inst.disintegrationTargetCamPos with _ | pt <;>
        rcases hO : inst.originalDustMaterialOpacity with _ | od <;>
        simp [disintegrationSubstep, hS, hD, hP, hI, hT, hO]

lemma rotationSubstep_position (inst : GalaxyInstance) (om am uj : ℝ) :
    (rotationSubstep inst om am uj).group.position = inst.group.position := rfl

lemma rotationSubstep_duration (inst : GalaxyInstance) (om am uj : ℝ) :
    (rotationSubstep inst om am uj).disintegrationDuration
      = inst.disintegrationDuration := rfl

lemma rotationSubstep_initial (inst : GalaxyInstance) (om am uj : ℝ) :
    (rotationSubstep inst om am uj).disintegrationInitialGroupPos
      = inst.disintegrationInitialGroupPos := rfl

lemma rotationSubstep_target (inst : GalaxyInstance) (om am uj : ℝ) :
    (rotationSubstep inst om am uj).disintegrationTargetCamPos
      = inst.disintegrationTargetCamPos := rfl

lemma rotationSubstep_scaleFactor (inst : GalaxyInstance) (om am uj : ℝ) :
    (rotationSubstep inst om am uj).disintegrationRandomScaleFactor
      = inst.disintegrationRandomScaleFactor := rfl

lemma rotationSubstep_origStar (inst : GalaxyInstance) (om am uj : ℝ) :
    (rotationSubstep inst om am uj).originalStarMaterialOpacity
      = inst.originalStarMaterialOpacity := rfl

lemma rotationSubstep_origDust (inst : GalaxyInstance) (om am uj : ℝ) :
    (rotationSubstep inst om am uj).originalDustMaterialOpacity
      = inst.originalDustMaterialOpacity := rfl

lemma rotationSubstep_delay (inst : GalaxyInstance) (om am uj : ℝ) :
    (rotationSubstep inst om am uj).disintegrationDelay = inst.disintegrationDelay := rfl

lemma rotationSubstep_dust (inst : GalaxyInstance) (om am uj : ℝ) :
    (rotationSubstep inst om am uj).dustSystem = inst.dustSystem.map fun d =>
      { d with rotation := { d.rotation with
          y := d.rotation.y + inst.baseArmSpeed * am * 100 * rand 0.9 1.1 uj } } := rfl

/-- Claim C1: one frame update of an instance in the Disintegrating phase with
progress `< 1` sets the group position to the interpolation from the
snapshotted initial position to the snapshotted target (camera) position by
`progress`, sets the uniform scale of the star cloud (and of the dust cloud
when present) to `1 + progress × scaleFactor`, and sets each material opacity
to its original opacity `× (1 − progress²)`, where
`progress = min(1, ((now − startTime)/1000)/duration)` (`now`, `startTime` in
ms, `duration` in seconds); the instance is kept.  In particular the opacity
factor at progress `0`, `0.5`, `1` yields `original`, `0.75 × original`,
`0`. -/
theorem updateInstance_disintegrating_frame (inst : GalaxyInstance) (now : ℝ)
    (cam : Option Vec3) (om am uj ud us st : ℝ) (p0 pt : Vec3)
    (hD : inst.isDisintegrating = true)
    (hS : inst.disintegrationAnimationStartTime = some st)
    (hI : inst.disintegrationInitialGroupPos = some p0)
    (hT : inst.disintegrationTargetCamPos = some pt)
    (hP : disintegrationProgress st inst.disintegrationDuration now < 1) :
    ((updateInstance inst now cam om am uj ud us).2 = true) ∧
    ((updateInstance inst now cam om am uj ud us).1.group.position
      = lerpVectors p0 pt (disintegrationProgress st inst.disintegrationDuration now)) ∧
    ((updateInstance inst now cam om am uj ud us).1.starSystem.scale
      = ⟨1 + disintegrationProgress st inst.disintegrationDuration now *
            inst.disintegrationRandomScaleFactor,
          1 + disintegrationProgress st inst.disintegrationDuration now *
            inst.disintegrationRandomScaleFactor,
          1 + disintegrationProgress st inst.disintegrationDuration now *
            inst.disintegrationRandomScaleFactor⟩) ∧
    ((updateInstance inst now cam om am uj ud us).1.starSystem.opacity
      = inst.originalStarMaterialOpacity *
          (1 - disintegrationProgress st inst.disintegrationDuration now *
            disintegrationProgress st inst.disintegrationDuration now)) ∧
    (∀ d0, inst.dustSystem = some d0 →
      ∃ d1, (updateInstance inst now cam om am uj ud us).1.dustSystem = some d1 ∧
        d1.scale = ⟨1 + disintegrationProgress st inst.disintegrationDuration now *
              inst.disintegrationRandomScaleFactor,
            1 + disintegrationProgress st inst.disintegrationDuration now *
              inst.disintegrationRandomScaleFactor,
            1 + disintegrationProgress st inst.disintegrationDuration now *
              inst.disintegrationRandomScaleFactor⟩ ∧
        (∀ od, inst.originalDustMaterialOpacity = some od →
          d1.opacity = od *
            (1 - disintegrationProgress st inst.disintegrationDuration now *
              disintegrationProgress st inst.disintegrationDuration now))) ∧
    (∀ o : ℝ, o * (1 - 0 * 0) = o ∧ o * (1 - 0.5 * 0.5) = 0.75 * o ∧
      o * (1 - 1 * 1) = 0) := by
  have hcomp : updateInstance inst now cam om am uj ud us
      = disintegrationSubstep (rotationSubstep inst om am uj) now := by
    unfold updateInstance
    rw [triggerSubstep_already _ _ _ _ _ (by rw [rotationSubstep_isDis]; exact hD)]
  have h1 : (rotationSubstep inst om am uj).isDisintegrating = true := by
    rw [rotationSubstep_isDis]; exact hD
  have h2 : (rotationSubstep inst om am uj).disintegrationAnimationStartTime = some st := by
    rw [rotationSubstep_startTime]; exact hS
  have h3 : (rotationSubstep inst om am uj).disintegrationInitialGroupPos = some p0 := by
    rw [rotationSubstep_initial]; exact hI
  have h4 : (rotationSubstep inst om am uj).disintegrationTargetCamPos = some pt := by
    rw [rotationSubstep_target]; exact hT
  have hP2 : ¬ disintegrationProgress st
      (rotationSubstep inst om am uj).disintegrationDuration now ≥ 1 := by
    rw [rotationSubstep_duration]; exact not_le.mpr hP
  have key := disintegrationSubstep_active (rotationSubstep inst om am uj) now st p0 pt
    h1 h2 h3 h4 hP2
  rw [rotationSubstep_duration, rotationSubstep_scaleFactor, rotationSubstep_origStar]
    at key
  rw [hcomp]
  refine ⟨key.1, key.2.1, key.2.2.1, key.2.2.2.1, ?_, fun o => ⟨by ring, by ring, by ring⟩⟩
  intro d0 hd0
  have hdust : (rotationSubstep inst om am uj).dustSystem = some
      { d0 with rotation := { d0.rotation with
          y := d0.rotation.y + inst.baseArmSpeed * am * 100 * rand 0.9 1.1 uj } } := by
    rw [rotationSubstep_dust, hd0]; rfl
  obtain ⟨d1, hd1, hsc, hop⟩ := key.2.2.2.2 _ hdust
  refine ⟨d1, hd1, hsc, fun od hod => hop od ?_⟩
  rw [rotationSubstep_origDust]; exact hod


lemma disintegrationSubstep_justFired (j : GalaxyInstance) (now : ℝ) (p0 pt : Vec3)
    (hD : j.isDisintegrating = true)
    (hS : j.disintegrationAnimationStartTime = some now)
    (hI : j.disintegrationInitialGroupPos = some p0)
    (hT : j.disintegrationTargetCamPos = some pt) :
    (disintegrationSubstep j now).2 = true ∧
    (disintegrationSubstep j now).1.starSystem.scale = ⟨1, 1, 1⟩ ∧
    (disintegrationSubstep j now).1.starSystem.opacity = j.originalStarMaterialOpacity ∧
    (∀ d0, j.dustSystem = some d0 →
      ∃ d1, (disintegrationSubstep j now).1.dustSystem = some d1 ∧ d1.scale = ⟨1, 1, 1⟩ ∧
        (∀ od, j.originalDustMaterialOpacity = some od → d1.opacity = od)) := by
  have hprog : disintegrationProgress now j.disintegrationDuration now = 0 := by
    simp [disintegrationProgress]
  have hP : ¬ disintegrationProgress now j.disintegrationDuration now ≥ 1 := by
    rw [hprog]; norm_num
  have key := disintegrationSubstep_active j now now p0 pt hD hS hI hT hP
  rw [hprog] at key
  refine ⟨key.1, ?_, ?_, ?_⟩
  · rw [key.2.2.1]; norm_num
  · rw [key.2.2.2.1]; ring
  · intro d0 hd0
    obtain ⟨d1, hd1, hsc, hop⟩ := key.2.2.2.2 d0 hd0
    refine ⟨d1, hd1, ?_, fun od hod => ?_⟩
    · rw [hsc]; norm_num
    · rw [hop od hod]; ring

set_option maxHeartbeats 1000000 in
/-- Claim C2: an instance in the Primed state transitions to Disintegrating on
the first frame update at which `now ≥ triggerTime + delay`; at that
transition the target position snapshots the camera position, the initial
position snapshots the current group position, `duration = rand(2.0, 4.5)`,
`scaleFactor = rand(2.5, 7.0)` (in range for draws in `[0, 1)`), and the star
and dust opacities and point-cloud scales are reset to their original
baselines; a frame update with `now < triggerTime + delay` does not enter
Disintegrating. -/
theorem updateInstance_primed_transition (inst : GalaxyInstance) (now : ℝ)
    (c : Vec3) (om am uj ud us t : ℝ)
    (hT : inst.disintegrationTriggerTime = some t)
    (hD : inst.isDisintegrating = false)
    (hud0 : 0 ≤ ud) (hud1 : ud < 1) (hus0 : 0 ≤ us) (hus1 : us < 1) :
    (now ≥ t + inst.disintegrationDelay →
      (updateInstance inst now (some c) om am uj ud us).1.isDisintegrating = true ∧
      (updateInstance inst now (some c) om am uj ud us).1.disintegrationAnimationStartTime
        = some now ∧
      (updateInstance inst now (some c) om am uj ud us).1.disintegrationTargetCamPos
        = some c ∧
      (updateInstance inst now (some c) om am uj ud us).1.disintegrationInitialGroupPos
        = some inst.group.position ∧
      (updateInstance inst now (some c) om am uj ud us).1.disintegrationDuration
        = rand 2.0 4.5 ud ∧
      (2 ≤ rand 2.0 4.5 ud ∧ rand 2.0 4.5 ud ≤ 4.5) ∧
      (updateInstance inst now (some c) om am uj ud us).1.disintegrationRandomScaleFactor
        = rand 2.5 7.0 us ∧
      (2.5 ≤ rand 2.5 7.0 us ∧ rand 2.5 7.0 us ≤ 7) ∧
      (updateInstance inst now (some c) om am uj ud us).1.starSystem.opacity
        = inst.originalStarMaterialOpacity ∧
      (updateInstance inst now (some c) om am uj ud us).1.starSystem.scale = ⟨1, 1, 1⟩ ∧
      (∀ d0 od, inst.dustSystem = some d0 → inst.originalDustMaterialOpacity = some od →
        ∃ d1, (updateInstance inst now (some c) om am uj ud us).1.dustSystem = some d1 ∧
          d1.opacity = od ∧ d1.scale = ⟨1, 1, 1⟩) ∧
      (updateInstance inst now (some c) om am uj ud us).2 = true) ∧
    (¬ now ≥ t + inst.disintegrationDelay →
      (updateInstance inst now (some c) om am uj ud us).1.isDisintegrating = false ∧
      (updateInstance inst now (some c) om am uj ud us).2 = true) := by
  have hT1 : (rotationSubstep inst om am uj).disintegrationTriggerTime = some t := by
    rw [rotationSubstep_trigger]; exact hT
  have hD1 : (rotationSubstep inst om am uj).isDisintegrating = false := by
    rw [rotationSubstep_isDis]; exact hD
  constructor
  · intro hN
    have hN1 : now ≥ t + (rotationSubstep inst om am uj).disintegrationDelay := by
      rw [rotationSubstep_delay]; exact hN
    have hfire := triggerSubstep_fire (rotationSubstep inst om am uj) now (some c) ud us t
      hT1 hD1 hN1
    have j1 : (triggerSubstep (rotationSubstep inst om am uj) now (some c) ud
        us).isDisintegrating = true := by rw [hfire]
    have j2 : (triggerSubstep (rotationSubstep inst om am uj) now (some c) ud
        us).disintegrationAnimationStartTime = some now := by rw [hfire]
    have j3 : (triggerSubstep (rotationSubstep inst om am uj) now (some c) ud
        us).disintegrationInitialGroupPos
        = some (rotationSubstep inst om am uj).group.position := by rw [hfire]
    have j4 : (triggerSubstep (rotationSubstep inst om am uj) now (some c) ud
        us).disintegrationTargetCamPos = some c := by rw [hfire]
    have j5 : (triggerSubstep (rotationSubstep inst om am uj) now (some c) ud
        us).disintegrationDuration = rand 2.0 4.5 ud := by rw [hfire]
    have j6 : (triggerSubstep (rotationSubstep inst om am uj) now (some c) ud
        us).disintegrationRandomScaleFactor = rand 2.5 7.0 us := by rw [hfire]
    have j7 : (triggerSubstep (rotationSubstep inst om am uj) now (some c) ud
        us).originalStarMaterialOpacity = inst.originalStarMaterialOpacity := by
      rw [hfire]; rfl
    have key := disintegrationSubstep_justFired _ now
      (rotationSubstep inst om am uj).group.position c j1 j2 j3 j4
    have fields := disintegrationSubstep_state_fields
      (triggerSubstep (rotationSubstep inst om am uj) now (some c) ud us) now
    refine ⟨fields.1.trans j1, fields.2.1.trans j2, fields.2.2.2.2.2.1.trans j4,
      fields.2.2.2.2.2.2.1.trans j3, fields.2.2.2.2.1.trans j5, ?_,
      fields.2.2.2.2.2.2.2.1.trans j6, ?_, key.2.2.1.trans j7, key.2.1, ?_, key.1⟩
    · unfold rand; constructor <;> linarith
    · unfold rand; constructor <;> linarith
    · intro d0 od hd0 hod
      have hod1 : (rotationSubstep inst om am uj).originalDustMaterialOpacity = some od := by
        rw [rotationSubstep_origDust]; exact hod
      have hdu1 : (rotationSubstep inst om am uj).dustSystem = some
          { d0 with rotation := { d0.rotation with
              y := d0.rotation.y + inst.baseArmSpeed * am * 100 * rand 0.9 1.1 uj } } := by
        rw [rotationSubstep_dust, hd0]; rfl
      have hdj : (triggerSubstep (rotationSubstep inst om am uj) now (some c) ud
          us).dustSystem = some
          { rotation := { d0.rotation with
              y := d0.rotation.y + inst.baseArmSpeed * am * 100 * rand 0.9 1.1 uj }
            scale := ⟨1, 1, 1⟩
            opacity := od } := by
        rw [hfire]
        show (match (rotationSubstep inst om am uj).dustSystem,
          (rotationSubstep inst om am uj).originalDustMaterialOpacity with
          | some d, some od2 => some { d with opacity := od2, scale := ⟨1, 1, 1⟩ }
          | d, _ => d) = _
        rw [hdu1, hod1]
      have hjod : (triggerSubstep (rotationSubstep inst om am uj) now (some c) ud
          us).originalDustMaterialOpacity = some od := by
        rw [hfire]; exact hod1
      obtain ⟨d1, hd1, hsc, hop⟩ := key.2.2.2 _ hdj
      exact ⟨d1, hd1, hop od hjod, hsc⟩
  · intro hN
    have hN1 : ¬ now ≥ t + (rotationSubstep inst om am uj).disintegrationDelay := by
      rw [rotationSubstep_delay]; exact hN
    have hU : updateInstance inst now (some c) om am uj ud us
        = disintegrationSubstep
            (triggerSubstep (rotationSubstep inst om am uj) now (some c) ud us) now := rfl
    rw [triggerSubstep_wait _ _ _ _ _ _ hT1 hD1 hN1] at hU
    rw [disintegrationSubstep_not_disintegrating _ _ hD1] at hU
    rw [hU]
    exact ⟨hD1, rfl⟩

lemma triggerSubstep_rotations (inst : GalaxyInstance) (now : ℝ) (cam : Option Vec3)
    (ud us : ℝ) :
    (triggerSubstep inst now cam ud us).group.rotation = inst.group.rotation ∧
    (triggerSubstep inst now cam ud us).starSystem.rotation = inst.starSystem.rotation ∧
    (triggerSubstep inst now cam ud us).dustSystem.map PointsObj.rotation
      = inst.dustSystem.map PointsObj.rotation := by
  rcases hT : inst.disintegrationTriggerTime with _ | t
  · simp [triggerSubstep, hT]
  · cases hD : inst.isDisintegrating
    · by_cases hN : now ≥ t + inst.disintegrationDelay
      · rcases hDu : inst.dustSystem with _ | d0 <;>
        rcases hO : inst.originalDustMaterialOpacity with _ | od <;>
        simp [triggerSubstep, hT, hD, hN, hDu, hO]
      · simp [triggerSubstep, hT, hD, hN]
    · simp [triggerSubstep, hT, hD]


/-- Claim C4: on every frame update, whatever the disintegration phase — also
on the tick on which the instance is disposed — the rotation substep is
applied before any disintegration processing: the group's y-rotation grows by
`baseOrbitSpeed × orbitMultiplier × 100`, the star cloud's by
`baseArmSpeed × armMultiplier × 100`, and the dust cloud's (when present) by
`baseArmSpeed × armMultiplier × 100 × rand(0.9, 1.1)`, the jitter lying in
`[0.9, 1.1]` for a draw in `[0, 1)`. -/
theorem updateInstance_rotation_always (inst : GalaxyInstance) (now : ℝ)
    (cam : Option Vec3) (om am uj ud us : ℝ) (hj0 : 0 ≤ uj) (hj1 : uj < 1) :
    ((updateInstance inst now cam om am uj ud us).1.group.rotation.y
      = inst.group.rotation.y + inst.baseOrbitSpeed * om * 100) ∧
    ((updateInstance inst now cam om am uj ud us).1.starSystem.rotation.y
      = inst.starSystem.rotation.y + inst.baseArmSpeed * am * 100) ∧
    (∀ d0, inst.dustSystem = some d0 →
      ∃ d1, (updateInstance inst now cam om am uj ud us).1.dustSystem = some d1 ∧
        d1.rotation.y = d0.rotation.y + inst.baseArmSpeed * am * 100 * rand 0.9 1.1 uj) ∧
    (0.9 ≤ rand 0.9 1.1 uj ∧ rand 0.9 1.1 uj ≤ 1.1) := by
  have hU : updateInstance inst now cam om am uj ud us
      = disintegrationSubstep
          (triggerSubstep (rotationSubstep inst om am uj) now cam ud us) now := rfl
  have r1 := disintegrationSubstep_rotations
    (triggerSubstep (rotationSubstep inst om am uj) now cam ud us) now
  have r2 := triggerSubstep_rotations (rotationSubstep inst om am uj) now cam ud us
  refine ⟨?_, ?_, ?_, ?_⟩
  · rw [hU, r1.1, r2.1]; rfl
  · rw [hU, r1.2.1, r2.2.1]; rfl
  · intro d0 hd0
    have hmap : (updateInstance inst now cam om am uj ud us).1.dustSystem.map
        PointsObj.rotation = some { d0.rotation with
          y := d0.rotation.y + inst.baseArmSpeed * am * 100 * rand 0.9 1.1 uj } := by
      rw [hU, r1.2.2, r2.2.2, rotationSubstep_dust, hd0]; rfl
    obtain ⟨d1, hd1, hrot⟩ := Option.map_eq_some'.mp hmap
    refine ⟨d1, hd1, ?_⟩
    rw [hrot]
  · unfold rand; constructor <;> linarith

lemma animateTick_cons (now : ℝ) (cam : Option Vec3) (om am : ℝ)
    (dr : ℕ → ℝ × ℝ × ℝ) (a : GalaxyInstance) (rest : List GalaxyInstance) (i : ℕ) :
    animateTick now cam om am dr (a :: rest) i =
      if (updateInstance a now cam om am (dr i).1 (dr i).2.1 (dr i).2.2).2 then
        (updateInstance a now cam om am (dr i).1 (dr i).2.1 (dr i).2.2).1 ::
          animateTick now cam om am dr rest (i + 1)
      else animateTick now cam om am dr rest (i + 1) := rfl

lemma animateTick_mem (now : ℝ) (cam : Option Vec3) (om am : ℝ)
    (dr : ℕ → ℝ × ℝ × ℝ) (inst : GalaxyInstance) (l2 : List GalaxyInstance) :
    ∀ (l1 : List GalaxyInstance) (i0 : ℕ),
      (updateInstance inst now cam om am (dr (i0 + l1.length)).1
        (dr (i0 + l1.length)).2.1 (dr (i0 + l1.length)).2.2).2 = true →
      (updateInstance inst now cam om am (dr (i0 + l1.length)).1
        (dr (i0 + l1.length)).2.1 (dr (i0 + l1.length)).2.2).1
        ∈ animateTick now cam om am dr (l1 ++ inst :: l2) i0 := by
  intro l1
  induction l1 with
  | nil =>
    intro i0 h
    simp only [List.length_nil, Nat.add_zero] at h ⊢
    rw [List.nil_append, animateTick_cons, if_pos (by rw [h])]
    exact List.mem_cons_self _ _
  | cons a l1 ih =>
    intro i0 h
    have hlen : i0 + (a :: l1).length = i0 + 1 + l1.length := by
      simp only [List.length_cons]
      omega
    rw [hlen] at h ⊢
    rw [List.cons_append, animateTick_cons]
    split_ifs with hk
    · exact List.mem_cons_of_mem _ (ih (i0 + 1) h)
    · exact ih (i0 + 1) h

/-- Claim C10 (frame condition): for an instance with no trigger time and not
disintegrating, one frame update produces exactly the rotation-substep result
and keeps the instance: only the y-rotations of the group, the star cloud and
the dust cloud change; position, scales, opacities and every disintegration
field are untouched, and the updated instance is in the collection
`animateTick` produces, whatever its position in the list. -/
theorem updateInstance_active_frame_condition (inst : GalaxyInstance) (now : ℝ)
    (cam : Option Vec3) (om am : ℝ)
    (hT : inst.disintegrationTriggerTime = none)
    (hD : inst.isDisintegrating = false) :
    (∀ uj ud us : ℝ, updateInstance inst now cam om am uj ud us
      = (rotationSubstep inst om am uj, true)) ∧
    (∀ uj : ℝ,
      (rotationSubstep inst om am uj).group.rotation.y
        = inst.group.rotation.y + inst.baseOrbitSpeed * om * 100 ∧
      (rotationSubstep inst om am uj).group.rotation.x = inst.group.rotation.x ∧
      (rotationSubstep inst om am uj).group.rotation.z = inst.group.rotation.z ∧
      (rotationSubstep inst om am uj).group.position = inst.group.position ∧
      (rotationSubstep inst om am uj).group.scale = inst.group.scale ∧
      (rotationSubstep inst om am uj).starSystem.rotation.y
        = inst.starSystem.rotation.y + inst.baseArmSpeed * am * 100 ∧
      (rotationSubstep inst om am uj).starSystem.rotation.x
        = inst.starSystem.rotation.x ∧
      (rotationSubstep inst om am uj).starSystem.rotation.z
        = inst.starSystem.rotation.z ∧
      (rotationSubstep inst om am uj).starSystem.scale = inst.starSystem.scale ∧
      (rotationSubstep inst om am uj).starSystem.opacity = inst.starSystem.opacity ∧
      ((rotationSubstep inst om am uj).dustSystem = inst.dustSystem.map fun d =>
        { d with rotation := { d.rotation with
            y := d.rotation.y + inst.baseArmSpeed * am * 100 * rand 0.9 1.1 uj } }) ∧
      (rotationSubstep inst om am uj).disintegrationTriggerTime
        = inst.disintegrationTriggerTime ∧
      (rotationSubstep inst om am uj).disintegrationDelay = inst.disintegrationDelay ∧
      (rotationSubstep inst om am uj).isDisintegrating = inst.isDisintegrating ∧
      (rotationSubstep inst om am uj).disintegrationAnimationStartTime
        = inst.disintegrationAnimationStartTime ∧
      (rotationSubstep inst om am uj).disintegrationDuration
        = inst.disintegrationDuration ∧
      (rotationSubstep inst om am uj).disintegrationTargetCamPos
        = inst.disintegrationTargetCamPos ∧
      (rotationSubstep inst om am uj).disintegrationInitialGroupPos
        = inst.disintegrationInitialGroupPos ∧
      (rotationSubstep inst om am uj).disintegrationRandomScaleFactor
        = inst.disintegrationRandomScaleFactor ∧
      (rotationSubstep inst om am uj).originalStarMaterialOpacity
        = inst.originalStarMaterialOpacity ∧
      (rotationSubstep inst om am uj).originalDustMaterialOpacity
        = inst.originalDustMaterialOpacity) ∧
    (∀ (dr : ℕ → ℝ × ℝ × ℝ) (l1 l2 : List GalaxyInstance) (i0 : ℕ),
      rotationSubstep inst om am (dr (i0 + l1.length)).1
        ∈ animateTick now cam om am dr (l1 ++ inst :: l2) i0) := by
  have hstep : ∀ uj ud us : ℝ, updateInstance inst now cam om am uj ud us
      = (rotationSubstep inst om am uj, true) := by
    intro uj ud us
    have hT1 : (rotationSubstep inst om am uj).disintegrationTriggerTime = none := by
      rw [rotationSubstep_trigger]; exact hT
    have hD1 : (rotationSubstep inst om am uj).isDisintegrating = false := by
      rw [rotationSubstep_isDis]; exact hD
    have hU : updateInstance inst now cam om am uj ud us
        = disintegrationSubstep
            (triggerSubstep (rotationSubstep inst om am uj) now cam ud us) now := rfl
    rw [hU, triggerSubstep_none _ _ _ _ _ hT1,
      disintegrationSubstep_not_disintegrating _ _ hD1]
  refine ⟨hstep, ?_, ?_⟩
  · intro uj
    exact ⟨rfl, rfl, rfl, rfl, rfl, rfl, rfl, rfl, rfl, rfl, rfl, rfl, rfl, rfl, rfl,
      rfl, rfl, rfl, rfl, rfl, rfl⟩
  · intro dr l1 l2 i0
    have h := animateTick_mem now cam om am dr inst l2 l1 i0
      (by rw [hstep (dr (i0 + l1.length)).1 (dr (i0 + l1.length)).2.1
        (dr (i0 + l1.length)).2.2])
    rw [hstep (dr (i0 + l1.length)).1 (dr (i0 + l1.length)).2.1
      (dr (i0 + l1.length)).2.2] at h
    exact h

lemma vecNorm_spherical (r phi theta : ℝ) (hr : 0 ≤ r) :
    vecNorm ⟨r * Real.sin phi * Real.cos theta, r * Real.sin phi * Real.sin theta,
      r * Real.cos phi⟩ = r := by
  unfold vecNorm
  have key : (r * Real.sin phi * Real.cos theta) ^ 2 +
      (r * Real.sin phi * Real.sin theta) ^ 2 + (r * Real.cos phi) ^ 2 = r ^ 2 := by
    have ht := Real.sin_sq_add_cos_sq theta
    have hp := Real.sin_sq_add_cos_sq phi
    linear_combination (r ^ 2 * Real.sin phi ^ 2) * ht + r ^ 2 * hp
  show Real.sqrt ((r * Real.sin phi * Real.cos theta) ^ 2 +
      (r * Real.sin phi * Real.sin theta) ^ 2 + (r * Real.cos phi) ^ 2) = r
  rw [key, Real.sqrt_sq hr]

/-- Claim C9: a regeneration pass with galaxy count `n` and spread `s ≥ 0`
yields exactly `n` instances, records every prior instance as disposed and
removed, and gives each new instance a position of Euclidean norm in
`[0.05 × s, 0.9 × s]`, a uniform group scale in `[0.4, 1.2]`, and the initial
Active disintegration state (no trigger time, not disintegrating, no
animation start time). -/
theorem regenerateEffect_spec (old : List GalaxyInstance) (n : ℕ) (spread : ℝ)
    (ds : ℕ → RegenDraws) (hs : 0 ≤ spread)
    (hu : ∀ i, (0 ≤ (ds i).uR ∧ (ds i).uR < 1) ∧
      (0 ≤ (ds i).uScale ∧ (ds i).uScale < 1)) :
    (regenerateEffect old n spread ds).instances.length = n ∧
    (regenerateEffect old n spread ds).disposed = old ∧
    (∀ inst ∈ (regenerateEffect old n spread ds).instances,
      (spread * 0.05 ≤ vecNorm inst.group.position ∧
        vecNorm inst.group.position ≤ spread * 0.9) ∧
      (∃ sc : ℝ, inst.group.scale = ⟨sc, sc, sc⟩ ∧ 0.4 ≤ sc ∧ sc ≤ 1.2) ∧
      inst.disintegrationTriggerTime = none ∧
      inst.isDisintegrating = false ∧
      inst.disintegrationAnimationStartTime = none) := by
  refine ⟨by simp [regenerateEffect], rfl, ?_⟩
  intro inst hmem
  simp only [regenerateEffect, List.mem_map, List.mem_range] at hmem
  obtain ⟨i, hi, rfl⟩ := hmem
  obtain ⟨⟨hr0, hr1⟩, hs0, hs1⟩ := hu i
  have hspan : (0 : ℝ) ≤ spread * 0.9 - spread * 0.05 := by nlinarith
  have hrlo : spread * 0.05 ≤ rand (spread * 0.05) (spread * 0.9) (ds i).uR := by
    have := mul_nonneg hr0 hspan
    unfold rand
    linarith
  have hrhi : rand (spread * 0.05) (spread * 0.9) (ds i).uR ≤ spread * 0.9 := by
    have := mul_nonneg (by linarith : (0 : ℝ) ≤ 1 - (ds i).uR) hspan
    unfold rand
    nlinarith
  have hrnonneg : 0 ≤ rand (spread * 0.05) (spread * 0.9) (ds i).uR := by
    have : (0 : ℝ) ≤ spread * 0.05 := by nlinarith
    linarith
  have hpos : (buildInstance spread (ds i)).group.position =
      ⟨rand (spread * 0.05) (spread * 0.9) (ds i).uR *
          Real.sin (Real.arccos (2 * (ds i).uPhi - 1)) *
          Real.cos ((ds i).uTheta * Real.pi * 2),
        rand (spread * 0.05) (spread * 0.9) (ds i).uR *
          Real.sin (Real.arccos (2 * (ds i).uPhi - 1)) *
          Real.sin ((ds i).uTheta * Real.pi * 2),
        rand (spread * 0.05) (spread * 0.9) (ds i).uR *
          Real.cos (Real.arccos (2 * (ds i).uPhi - 1))⟩ := rfl
  have hnorm : vecNorm (buildInstance spread (ds i)).group.position
      = rand (spread * 0.05) (spread * 0.9) (ds i).uR := by
    rw [hpos, vecNorm_spherical _ _ _ hrnonneg]
  refine ⟨⟨by rw [hnorm]; exact hrlo, by rw [hnorm]; exact hrhi⟩,
    ⟨rand 0.4 1.2 (ds i).uScale, rfl, ?_, ?_⟩, rfl, rfl, rfl⟩
  · unfold rand; linarith
  · unfold rand; linarith

lemma dustPositionsBuffer_length (p : GalaxyParams) (n : ℕ) (dds : ℕ → DustDraws) :
    (dustPositionsBuffer p n dds).length = 3 * n := by
  induction n with
  | zero => simp [dustPositionsBuffer]
  | succ k ih =>
    unfold dustPositionsBuffer at ih ⊢
    rw [List.range_succ, List.flatMap_append, List.length_append, ih]
    simp
    omega

/-- Claim C8: the dust point count is `⌊numStarPoints / rand(3, 6)⌋` with the
draw in `[3, 6)`; the dust cloud and the recorded original dust opacity are
omitted exactly when that count is `0`; and when dust is built its position
buffer holds `3 ×` count entries. -/
theorem createSingleGalaxyGroup_dust_spec (p : GalaxyParams) (uDust : ℝ)
    (hn : 0 ≤ p.numStarPoints) (h0 : 0 ≤ uDust) (h1 : uDust < 1) :
    (3 ≤ rand 3 6 uDust ∧ rand 3 6 uDust < 6) ∧
    numDustPoints p.numStarPoints uDust
      = Int.floor ((p.numStarPoints : ℝ) / rand 3 6 uDust) ∧
    ((createSingleGalaxyGroupScene p uDust).dustSystem = none ↔
      numDustPoints p.numStarPoints uDust = 0) ∧
    ((createSingleGalaxyGroupScene p uDust).originalDustMaterialOpacity = none ↔
      numDustPoints p.numStarPoints uDust = 0) ∧
    (∀ dds : ℕ → DustDraws,
      (dustPositionsBuffer p (numDustPoints p.numStarPoints uDust).toNat dds).length
        = 3 * (numDustPoints p.numStarPoints uDust).toNat) := by
  have hrand : 3 ≤ rand 3 6 uDust ∧ rand 3 6 uDust < 6 := by
    unfold rand; constructor <;> linarith
  have hpos : (0 : ℝ) < rand 3 6 uDust := by linarith [hrand.1]
  have hquot : (0 : ℝ) ≤ (p.numStarPoints : ℝ) / rand 3 6 uDust := by
    apply div_nonneg _ hpos.le
    exact_mod_cast hn
  have hcount : 0 ≤ numDustPoints p.numStarPoints uDust := by
    unfold numDustPoints
    exact Int.floor_nonneg.mpr hquot
  refine ⟨hrand, rfl, ?_, ?_, fun dds => dustPositionsBuffer_length p _ dds⟩
  · unfold createSingleGalaxyGroupScene
    dsimp only
    constructor
    · intro h
      by_contra hne
      rw [if_pos (by omega)] at h
      exact Option.noConfusion h
    · intro h
      rw [if_neg (by omega)]
  · unfold createSingleGalaxyGroupScene
    dsimp only
    constructor
    · intro h
      by_contra hne
      rw [if_pos (by omega)] at h
      exact Option.noConfusion h
    · intro h
      rw [if_neg (by omega)]

lemma planar_radius (rd a : ℝ) :
    (rd * Real.cos a) ^ 2 + (rd * Real.sin a) ^ 2 = rd ^ 2 := by
  have h := Real.sin_sq_add_cos_sq a
  linear_combination rd ^ 2 * h

/-- Claim C6 (amended): for a point whose edge-extension branch is not taken
and which lies outside the core region, the planar distance of the generated
point satisfies `x² + z² = r²` with `r = progress^1.6 × radius` for star
points and `r = progress^1.3 × radius × 0.95 + radius × 0.05` for dust points
(the claimed bare `progress^1.3 × radius` is wrong for dust). -/
theorem pointPos_radial_distance_law (p : GalaxyParams) (dstar : StarDraws)
    (ddust : DustDraws)
    (hs1 : ¬ dstar.progress > 0.7)
    (hs2 : ¬ starRadialDistancePre dstar.progress p.radius < p.radius * p.coreRatio)
    (hd1 : ¬ ddust.progress > 0.65)
    (hd2 : ¬ dustRadialDistancePre ddust.progress p.radius
      < p.radius * p.coreRatio * 1.8) :
    (starPointPos p dstar).1 ^ 2 + (starPointPos p dstar).2.2 ^ 2
      = (dstar.progress ^ (1.6 : ℝ) * p.radius) ^ 2 ∧
    (dustPointPos p ddust).1 ^ 2 + (dustPointPos p ddust).2.2 ^ 2
      = (ddust.progress ^ (1.3 : ℝ) * p.radius * 0.95 + p.radius * 0.05) ^ 2 := by
  constructor
  · have hs2a : ¬ starRadialDistancePre dstar.progress p.radius * 1.0
        < p.radius * p.coreRatio := by
      rw [show starRadialDistancePre dstar.progress p.radius * 1.0
        = starRadialDistancePre dstar.progress p.radius from by norm_num]
      exact hs2
    simp only [starPointPos]
    rw [if_neg hs1, if_neg hs2a, planar_radius]
    norm_num [starRadialDistancePre]
  · have hd2a : ¬ dustRadialDistancePre ddust.progress p.radius * 1.0
        < p.radius * p.coreRatio * 1.8 := by
      rw [show dustRadialDistancePre ddust.progress p.radius * 1.0
        = dustRadialDistancePre ddust.progress p.radius from by norm_num]
      exact hd2
    simp only [dustPointPos]
    rw [if_neg hd1, if_neg hd2a, planar_radius]
    norm_num [dustRadialDistancePre]

/-- Counterexample to C6 as stated: at `progress = 0`, `radius = 1` the dust
radial distance before edge-extension is `0.05`, not
`progress^1.3 × radius = 0`. -/
theorem dustRadialDistancePre_ne_claimed_formula :
    dustRadialDistancePre 0 1 ≠ (0 : ℝ) ^ (1.3 : ℝ) * 1 := by
  have hz : (0 : ℝ) ^ (1.3 : ℝ) = 0 := Real.zero_rpow (by norm_num)
  rw [dustRadialDistancePre, hz]
  norm_num

lemma zeroRadiusParams_radius : zeroRadiusParams.radius = 0 := by
  norm_num [zeroRadiusParams, generateRandomGalaxyParameters, rand]

lemma zeroRadiusParams_thickness : zeroRadiusParams.thickness = 0 := by
  norm_num [zeroRadiusParams, generateRandomGalaxyParameters, rand]

/-- Claim C7 at `radius = 0`: the star position pipeline puts `x = z = 0`
but computes `normalizedRadiusForThickness = min(1, 0/0) = NaN`, so the
stored vertical coordinate is `NaN`, not `0` — the generated buffer is not
all-zero and not NaN-free. -/
theorem starPointPos_zero_radius_nan :
    zeroRadiusParams.radius = 0 ∧
    (starPointPos zeroRadiusParams halfStarDraws).1 = 0 ∧
    (starPointPos zeroRadiusParams halfStarDraws).2.1 = JSNum.nan ∧
    (starPointPos zeroRadiusParams halfStarDraws).2.2 = 0 := by
  have hrad := zeroRadiusParams_radius
  have hpre0 : starRadialDistancePre ((1 : ℝ)/2) 0 = 0 := by
    rw [starRadialDistancePre, mul_zero]
  refine ⟨hrad, ?_, ?_, ?_⟩ <;>
  · simp only [starPointPos, hrad]
    norm_num [halfStarDraws, hpre0, jsMin, jsDiv, jsMul, jsSub, jsAdd, jsNeg, jsPow,
      JSNum.gtR]

/-- Witness for C1: the disintegrating sample instance one tick after its
animation start. -/
theorem updateInstance_disintegrating_frame_witness :
    (updateInstance sampleDisintegratingInstance 1000 (some ⟨0, 0, 10⟩) 1 1
      (1/2) (1/2) (1/2)).2 = true ∧
    (updateInstance sampleDisintegratingInstance 1000 (some ⟨0, 0, 10⟩) 1 1
      (1/2) (1/2) (1/2)).1.starSystem.opacity
      = sampleDisintegratingInstance.originalStarMaterialOpacity *
          (1 - disintegrationProgress 1000
              sampleDisintegratingInstance.disintegrationDuration 1000 *
            disintegrationProgress 1000
              sampleDisintegratingInstance.disintegrationDuration 1000) :=
  have h := updateInstance_disintegrating_frame sampleDisintegratingInstance 1000
    (some ⟨0, 0, 10⟩) 1 1 (1/2) (1/2) (1/2) 1000 ⟨0, 0, 0⟩ ⟨0, 0, 10⟩ rfl rfl rfl rfl
    (by norm_num [disintegrationProgress, sampleDisintegratingInstance])
  ⟨h.1, h.2.2.2.1⟩

/-- Witness for C2: the primed sample instance fired at `now = 200` with the
camera at `(5, 5, 5)`. -/
theorem updateInstance_primed_transition_witness :
    (updateInstance samplePrimedInstance 200 (some ⟨5, 5, 5⟩) 1 1
      (1/2) (1/2) (1/2)).1.isDisintegrating = true ∧
    (updateInstance samplePrimedInstance 200 (some ⟨5, 5, 5⟩) 1 1
      (1/2) (1/2) (1/2)).1.disintegrationTargetCamPos = some ⟨5, 5, 5⟩ ∧
    (updateInstance samplePrimedInstance 200 (some ⟨5, 5, 5⟩) 1 1
      (1/2) (1/2) (1/2)).1.disintegrationAnimationStartTime = some 200 :=
  have h := updateInstance_primed_transition samplePrimedInstance 200 ⟨5, 5, 5⟩ 1 1
    (1/2) (1/2) (1/2) 0 rfl rfl (by norm_num) (by norm_num) (by norm_num) (by norm_num)
  have hf := h.1 (by norm_num [samplePrimedInstance, sampleDisintegratingInstance])
  ⟨hf.1, hf.2.2.1, hf.2.1⟩

/-- Witness for C4: rotation applied to the disintegrating sample instance. -/
theorem updateInstance_rotation_always_witness :
    (updateInstance sampleDisintegratingInstance 1000 (some ⟨0, 0, 10⟩) 1 1
      (1/2) (1/2) (1/2)).1.group.rotation.y
      = sampleDisintegratingInstance.group.rotation.y +
          sampleDisintegratingInstance.baseOrbitSpeed * 1 * 100 ∧
    (0.9 ≤ rand 0.9 1.1 (1/2) ∧ rand 0.9 1.1 (1/2) ≤ 1.1) :=
  have h := updateInstance_rotation_always sampleDisintegratingInstance 1000
    (some ⟨0, 0, 10⟩) 1 1 (1/2) (1/2) (1/2) (by norm_num) (by norm_num)
  ⟨h.1, h.2.2.2⟩

/-- Witness for C10: the active sample instance is only rotated and kept. -/
theorem updateInstance_active_frame_condition_witness :
    updateInstance sampleActiveInstance 0 none 1 1 (1/2) (1/2) (1/2)
      = (rotationSubstep sampleActiveInstance 1 1 (1/2), true) :=
  (updateInstance_active_frame_condition sampleActiveInstance 0 none 1 1 rfl rfl).1
    (1/2) (1/2) (1/2)

/-- Witness for C9: two instances regenerated at spread `100` with constant
draws `1/2`. -/
theorem regenerateEffect_spec_witness :
    (regenerateEffect [] 2 100 (fun _ =>
      { params := fun _ => 1/2, uDust := 1/2, uR := 1/2, uPhi := 1/2, uTheta := 1/2,
        uRotX := 1/2, uRotY := 1/2, uRotZ := 1/2, uScale := 1/2 })).instances.length
      = 2 :=
  (regenerateEffect_spec [] 2 100 _ (by norm_num)
    (fun _ => ⟨⟨by norm_num, by norm_num⟩, by norm_num, by norm_num⟩)).1

/-- Witness for C6 (amended) at `progress = 0`, `radius = 1`, `coreRatio = 0`. -/
theorem pointPos_radial_distance_law_witness :
    (starPointPos flatParams zeroStarDraws).1 ^ 2 + (starPointPos flatParams
      zeroStarDraws).2.2 ^ 2
      = (zeroStarDraws.progress ^ (1.6 : ℝ) * flatParams.radius) ^ 2 ∧
    (dustPointPos flatParams zeroDustDraws).1 ^ 2 + (dustPointPos flatParams
      zeroDustDraws).2.2 ^ 2
      = (zeroDustDraws.progress ^ (1.3 : ℝ) * flatParams.radius * 0.95 +
          flatParams.radius * 0.05) ^ 2 :=
  pointPos_radial_distance_law flatParams zeroStarDraws zeroDustDraws
    (by norm_num [zeroStarDraws])
    (by norm_num [starRadialDistancePre, flatParams, zeroStarDraws,
      Real.zero_rpow])
    (by norm_num [zeroDustDraws])
    (by norm_num [dustRadialDistancePre, flatParams, zeroDustDraws,
      Real.zero_rpow])

/-- Witness for C8 at `numStarPoints = 4000` and draw `1/2`. -/
theorem createSingleGalaxyGroup_dust_spec_witness :
    (3 ≤ rand 3 6 (1/2) ∧ rand 3 6 (1/2) < 6) ∧
    ((createSingleGalaxyGroupScene flatParams (1/2)).dustSystem = none ↔
      numDustPoints flatParams.numStarPoints (1/2) = 0) :=
  have h := createSingleGalaxyGroup_dust_spec flatParams (1/2)
    (by norm_num [flatParams]) (by norm_num) (by norm_num)
  ⟨h.1, h.2.2.1⟩
